import Mathlib

/-!
Shallow embedding of `src/main.cpp` (a real-time black hole visualization).

Modelling conventions:
* `float`/`double` arithmetic of the animation and easing code is idealized as
  exact real arithmetic over `ℝ`; decimal literals are read exactly (in
  particular `easeInOutSine` uses the source's literal `3.14159265`, not `π`).
* integer sizes and GL handles are `ℕ`/`ℤ`; texture allocation is modelled by a
  monotone counter producing fresh nonzero handles.
* the per-frame state machine (timestamps, autopilot) uses `ℚ`, keeping the
  state-transition definitions executable.
-/

namespace BlackholeVis

/-- 3D vector over `ℝ`, standing in for `glm::vec3`. -/
@[ext]
structure Vec3 where
  x : ℝ
  y : ℝ
  z : ℝ

instance : Add Vec3 := ⟨fun a b => ⟨a.x + b.x, a.y + b.y, a.z + b.z⟩⟩

instance : SMul ℝ Vec3 := ⟨fun r v => ⟨r * v.x, r * v.y, r * v.z⟩⟩

/-- Euclidean length, standing in for `glm::length`. -/
noncomputable def Vec3.norm (v : Vec3) : ℝ := Real.sqrt (v.x ^ 2 + v.y ^ 2 + v.z ^ 2)

/-- `glm::normalize`. -/
noncomputable def Vec3.normalize (v : Vec3) : Vec3 :=
  ⟨v.x / v.norm, v.y / v.norm, v.z / v.norm⟩

/-- `easeInOutCubic` (main.cpp lines 70-73). -/
noncomputable def easeInOutCubic (t : ℝ) : ℝ :=
  if t < 0.5 then 4 * t * t * t else 1 - (-2 * t + 2) ^ (3 : ℕ) / 2

/-- `easeInOutQuint` (main.cpp lines 75-78). -/
noncomputable def easeInOutQuint (t : ℝ) : ℝ :=
  if t < 0.5 then 16 * t * t * t * t * t else 1 - (-2 * t + 2) ^ (5 : ℕ) / 2

/-- `easeInOutSine` (main.cpp line 81).  The source uses the literal
`3.14159265f`, not an exact `π`; the literal is kept exactly. -/
noncomputable def easeInOutSine (t : ℝ) : ℝ :=
  -(Real.cos (3.14159265 * t) - 1) / 2

/-- `calculateBezierPoint` (main.cpp lines 83-93). -/
def calculateBezierPoint (t : ℝ) (p0 p1 p2 p3 : Vec3) : Vec3 :=
  let u := 1 - t
  let tt := t * t
  let uu := u * u
  let uuu := uu * u
  let ttt := tt * t
  uuu • p0 + (3 * uu * t) • p1 + (3 * u * tt) • p2 + ttt • p3

/-- The cubic Bernstein polynomial as written in the spec (§4.2):
`(1-t)^3 p0 + 3(1-t)^2 t p1 + 3(1-t) t^2 p2 + t^3 p3`.  This definition
follows the spec's words, for comparison with `calculateBezierPoint`. -/
def bernsteinCubic (t : ℝ) (p0 p1 p2 p3 : Vec3) : Vec3 :=
  ((1 - t) ^ (3 : ℕ)) • p0 + (3 * (1 - t) ^ (2 : ℕ) * t) • p1 +
    (3 * (1 - t) * t ^ (2 : ℕ)) • p2 + (t ^ (3 : ℕ)) • p3

/-- A GPU color texture handle together with its allocated size
(`createColorTexture(w, h)` in render.h). -/
structure Tex where
  id : ℕ
  w : ℕ
  h : ℕ
deriving DecidableEq, Repr

/-- `createColorTexture`: GL hands back a fresh nonzero handle; modelled by a
monotone counter threaded through the allocations. -/
def createColorTexture (ctr w h : ℕ) : Tex × ℕ :=
  (⟨ctr + 1, w, h⟩, ctr + 1)

/-- `kMaxBloomIter` (main.cpp line 42). -/
def kMaxBloomIter : ℕ := 5

/-- Downsample-target dimension for mip level `i`:
`renderDim >> (i+1)`, floored to 1 (main.cpp lines 803-808). -/
def downDim (renderDim i : ℕ) : ℕ :=
  let d := renderDim >>> (i + 1)
  if d < 1 then 1 else d

/-- Upsample-target dimension for mip level `i`:
`renderDim >> i`, floored to 1 (main.cpp lines 809-814). -/
def upDim (renderDim i : ℕ) : ℕ :=
  let d := renderDim >>> i
  if d < 1 then 1 else d

/-- The bloom-mip allocation loop (main.cpp lines 802-817): allocates `n`
further (downsample, upsample) texture pairs starting at mip index `i`. -/
def allocMipsAux (renderW renderH : ℕ) : ℕ → ℕ → ℕ → List Tex × List Tex × ℕ
  | ctr, _, 0 => ([], [], ctr)
  | ctr, i, n + 1 =>
    let (down, c1) := createColorTexture ctr (downDim renderW i) (downDim renderH i)
    let (up, c2) := createColorTexture c1 (upDim renderW i) (upDim renderH i)
    let (downs, ups, c3) := allocMipsAux renderW renderH c2 (i + 1) n
    (down :: downs, up :: ups, c3)

/-- The set of render targets owned by the frame loop (the `static` texture
handles of main.cpp lines 658 and 766-772, together with the remembered
allocation size `renderWidth`/`renderHeight`). -/
structure RenderTargetSet where
  renderWidth : ℕ
  renderHeight : ℕ
  texBlackhole : Tex
  fboBlackhole : ℕ
  texBrightness : Tex
  texBloomFinal : Tex
  texTonemapped : Tex
  texDownsampled : List Tex
  texUpsampled : List Tex
  nextId : ℕ
deriving DecidableEq, Repr

/-- Initial state: all handles zero, nothing allocated (the `static ... = 0`
initializers). -/
def RenderTargetSet.init : RenderTargetSet :=
  { renderWidth := 0, renderHeight := 0, texBlackhole := ⟨0, 0, 0⟩,
    fboBlackhole := 0, texBrightness := ⟨0, 0, 0⟩, texBloomFinal := ⟨0, 0, 0⟩,
    texTonemapped := ⟨0, 0, 0⟩, texDownsampled := [], texUpsampled := [],
    nextId := 0 }

/-- The per-frame resize check and (re)allocation (main.cpp lines 782-818):
if the scaled size differs from the remembered one (or nothing is allocated
yet), every chain target is recreated at the current size; otherwise nothing
happens.  Returns whether reallocation occurred. -/
def ensureSized (s : RenderTargetSet) (scaledWidth scaledHeight : ℕ) :
    Bool × RenderTargetSet :=
  if scaledWidth ≠ s.renderWidth ∨ scaledHeight ≠ s.renderHeight ∨
      s.texBlackhole.id = 0 then
    let (texBlackhole, c1) := createColorTexture s.nextId scaledWidth scaledHeight
    let fboBlackhole := c1 + 1
    let c2 := c1 + 1
    let (texBrightness, c3) := createColorTexture c2 scaledWidth scaledHeight
    let (texBloomFinal, c4) := createColorTexture c3 scaledWidth scaledHeight
    let (texTonemapped, c5) := createColorTexture c4 scaledWidth scaledHeight
    let (downs, ups, c6) := allocMipsAux scaledWidth scaledHeight c5 0 kMaxBloomIter
    (true,
      { renderWidth := scaledWidth, renderHeight := scaledHeight,
        texBlackhole := texBlackhole, fboBlackhole := fboBlackhole,
        texBrightness := texBrightness, texBloomFinal := texBloomFinal,
        texTonemapped := texTonemapped, texDownsampled := downs,
        texUpsampled := ups, nextId := c6 })
  else
    (false, s)

/-- Symbolic reference to one of the bloom-chain textures. -/
inductive BloomTexRef where
  | blackhole
  | brightness
  | bloomFinal
  | tonemapped
  | downsampled (i : ℕ)
  | upsampled (i : ℕ)
deriving DecidableEq, Repr

/-- One `renderToTexture` invocation of the bloom chain: its input
texture(s), its target, and the viewport it renders at. -/
structure BloomPass where
  texture0 : BloomTexRef
  texture1 : Option BloomTexRef
  target : BloomTexRef
  width : ℕ
  height : ℕ
deriving DecidableEq, Repr

/-- The downsample pass for `level` (main.cpp lines 1080-1093). -/
def downsamplePassAt (renderW renderH level : ℕ) : BloomPass :=
  { texture0 := if level = 0 then .brightness else .downsampled (level - 1)
    texture1 := none
    target := .downsampled level
    width := let w := renderW >>> (level + 1); if w < 1 then 1 else w
    height := let h := renderH >>> (level + 1); if h < 1 then 1 else h }

/-- The downsample chain: `for (level = 0; level < bloomIterations; level++)`. -/
def downsamplePasses (bloomIterations renderW renderH : ℕ) : List BloomPass :=
  (List.range bloomIterations).map (downsamplePassAt renderW renderH)

/-- The upsample-and-combine pass for `level` (main.cpp lines 1095-1111). -/
def upsamplePassAt (bloomIterations renderW renderH level : ℕ) : BloomPass :=
  { texture0 :=
      if level = bloomIterations - 1 then .downsampled level
      else .upsampled (level + 1)
    texture1 := some (if level = 0 then .brightness else .downsampled (level - 1))
    target := .upsampled level
    width := let w := renderW >>> level; if w < 1 then 1 else w
    height := let h := renderH >>> level; if h < 1 then 1 else h }

/-- The upsample chain: `for (level = bloomIterations - 1; level >= 0; level--)`,
i.e. the passes listed in the loop's execution order `N-1, N-2, …, 0`. -/
def upsamplePasses (bloomIterations renderW renderH : ℕ) : List BloomPass :=
  (List.range bloomIterations).reverse.map (upsamplePassAt bloomIterations renderW renderH)

/-- The final bloom composite (main.cpp lines 1113-1125): blends the primary
image with `texUpsampled[0]` into `texBloomFinal` at full render resolution. -/
def bloomCompositePass (renderW renderH : ℕ) : BloomPass :=
  { texture0 := .blackhole
    texture1 := some (.upsampled 0)
    target := .bloomFinal
    width := renderW
    height := renderH }

/-- The tonemapping pass (main.cpp lines 1127-1139). -/
def tonemapPass (renderW renderH : ℕ) : BloomPass :=
  { texture0 := .bloomFinal
    texture1 := none
    target := .tonemapped
    width := renderW
    height := renderH }

/-- `CameraState` (main.cpp lines 349-356); the derived view/projection
matrices are omitted (no claim mentions them). -/
structure CameraState where
  pos : Vec3
  target : Vec3
  fovScale : ℝ
  rollRadians : ℝ

/-- The camera placement modes of `computeCameraState`, in priority order. -/
inductive CameraMode where
  | autopilot
  | manual
  | front
  | top
  | defaultOrbit
deriving DecidableEq, Repr

/-- The mode actually taken by the if/else-if chain of `computeCameraState`
(main.cpp lines 368-385). -/
def selectCameraMode (mouseControlEnabled frontView topView autopilotActive : Bool) :
    CameraMode :=
  if autopilotActive then .autopilot
  else if mouseControlEnabled then .manual
  else if frontView then .front
  else if topView then .top
  else .defaultOrbit

/-- `computeCameraState` (main.cpp lines 358-398). -/
noncomputable def computeCameraState (timeSeconds : ℝ) (width height : ℤ)
    (mouseX mouseY : ℝ) (mouseControlEnabled frontView topView : Bool)
    (cameraRollDeg fovScale : ℝ) (autopilotActive : Bool)
    (autopilotPos : Vec3) : CameraState :=
  let rollRadians := cameraRollDeg * Real.pi / 180
  let pos : Vec3 :=
    if autopilotActive then autopilotPos
    else if mouseControlEnabled then
      let mx := min 1 (max 0 (mouseX / (width : ℝ))) - 0.5
      let my := min 1 (max 0 (mouseY / (height : ℝ))) - 0.5
      ⟨-Real.cos (mx * 10) * 15, my * 30, Real.sin (mx * 10) * 15⟩
    else if frontView then ⟨10, 1, 10⟩
    else if topView then ⟨15, 15, 0⟩
    else
      ⟨-Real.cos (timeSeconds * 0.1) * 15, Real.sin (timeSeconds * 0.1) * 15,
        Real.sin (timeSeconds * 0.1) * 15⟩
  { pos := pos, target := ⟨0, 0, 0⟩, fovScale := fovScale,
    rollRadians := rollRadians }

/-- `SatelliteState` (main.cpp lines 401-404). -/
structure SatelliteState where
  position : Vec3
  velocity : Vec3

/-- The elliptical radius `r(θ) = a(1-e²) / (1 + e·cos θ)` with the source's
constants `a = 5.5`, `e = 0.3` (main.cpp lines 417-419). -/
noncomputable def orbitRadius (angle : ℝ) : ℝ :=
  5.5 * (1 - 0.3 * 0.3) / (1 + 0.3 * Real.cos angle)

/-- `computeSatelliteOrbit` (main.cpp lines 406-446). -/
noncomputable def computeSatelliteOrbit (timeSeconds : ℝ) : SatelliteState :=
  let orbitSpeed : ℝ := 0.15
  let inclination : ℝ := 15.0
  let verticalOscillation : ℝ := 0.8
  let verticalFreq : ℝ := 0.4
  let angle := timeSeconds * orbitSpeed
  let r := orbitRadius angle
  let x := r * Real.cos angle
  let z0 := r * Real.sin angle
  let incRad := inclination * Real.pi / 180
  let y := z0 * Real.sin incRad +
    verticalOscillation * Real.sin (timeSeconds * verticalFreq)
  let z := z0 * Real.cos incRad
  let nextAngle := angle + 0.01
  let nextR := orbitRadius nextAngle
  let nextX := nextR * Real.cos nextAngle
  let nextZ0 := nextR * Real.sin nextAngle
  let nextY := nextZ0 * Real.sin incRad +
    verticalOscillation * Real.sin ((timeSeconds + 0.01) * verticalFreq)
  let nextZ := nextZ0 * Real.cos incRad
  { position := ⟨x, y, z⟩
    velocity := Vec3.normalize ⟨nextX - x, nextY - y, nextZ - z⟩ }

/-- The per-frame satellite sampling for the HUD probe-status panel
(main.cpp line 911: `SatelliteState satPreview = computeSatelliteOrbit(now)`). -/
noncomputable def hudProbeStatus (now : ℝ) : SatelliteState :=
  computeSatelliteOrbit now

/-- The per-frame satellite sampling for rendering (main.cpp line 1022:
`SatelliteState satState = computeSatelliteOrbit(now)`). -/
noncomputable def renderedSatellite (now : ℝ) : SatelliteState :=
  computeSatelliteOrbit now

/-- The autopilot animation state (`autopilotActive`, `autopilotT`). -/
structure AutopilotState where
  active : Bool
  t : ℚ
deriving DecidableEq, Repr

/-- `autopilotDuration = 18.0f` (main.cpp line 702). -/
def autopilotDuration : ℚ := 18

/-- The C-key toggle edge (main.cpp lines 726-730):
`autopilotActive = !autopilotActive; if (autopilotActive) autopilotT = 0.0;`. -/
def autopilotToggle (s : AutopilotState) : AutopilotState :=
  let active := !s.active
  { active := active, t := if active then 0 else s.t }

/-- The per-frame advance (main.cpp lines 741-743):
`if (autopilotActive) autopilotT = min(1.0, autopilotT + deltaTime / autopilotDuration)`. -/
def autopilotAdvance (s : AutopilotState) (deltaTime : ℚ) : AutopilotState :=
  if s.active then { s with t := min 1 (s.t + deltaTime / autopilotDuration) }
  else s

/-- Names for the rendering passes a frame issues, in order. -/
inductive PassKind where
  | raymarch
  | satellite
  | grid
  | brightPass
  | downsample (level : ℕ)
  | upsample (level : ℕ)
  | bloomComposite
  | tonemap
  | presentBlit
deriving DecidableEq, Repr

/-- Default `bloomIterations` (main.cpp line 1075). -/
def bloomIterationsDefault : ℕ := 5

/-- The ordered list of rendering passes of one full frame body
(main.cpp lines 942-1141). -/
def framePasses (bloomIterations : ℕ) : List PassKind :=
  [.raymarch, .satellite, .grid, .brightPass] ++
    (List.range bloomIterations).map .downsample ++
    (List.range bloomIterations).reverse.map .upsample ++
    [.bloomComposite, .tonemap, .presentBlit]

/-- The mutable state carried across frames by the main loop. -/
structure FrameState where
  lastFrameTime : ℚ
  prevCKey : Bool
  autopilot : AutopilotState
  rt : RenderTargetSet
deriving DecidableEq, Repr

/-- Per-frame inputs: the clock, the C key, and the framebuffer size. -/
structure FrameInput where
  now : ℚ
  cPressed : Bool
  width : ℤ
  height : ℤ
deriving DecidableEq, Repr

/-- What a frame did: whether the frame body ran, and the passes issued. -/
structure FrameOutput where
  ranBody : Bool
  passes : List PassKind
deriving DecidableEq, Repr

/-- One iteration of the main loop (main.cpp lines 712-1148).  The order is
the source's: timestamp/deltaTime update, C-key edge handling, autopilot
advance, then the viewport check `width <= 0 || height <= 0` which skips the
rest of the frame body (`continue` after presenting the old buffer); only a
frame that passes the check computes the scaled resolution
(`(int)(width * 0.75f)`, exact as `width * 3 / 4` since `0.75 = 3/4`), runs
the resize check and issues the rendering passes. -/
def frameStep (s : FrameState) (inp : FrameInput) : FrameState × FrameOutput :=
  let deltaTime := inp.now - s.lastFrameTime
  let ap1 := if inp.cPressed && !s.prevCKey then autopilotToggle s.autopilot
    else s.autopilot
  let ap2 := autopilotAdvance ap1 deltaTime
  if inp.width ≤ 0 ∨ inp.height ≤ 0 then
    ({ lastFrameTime := inp.now, prevCKey := inp.cPressed, autopilot := ap2,
       rt := s.rt },
     { ranBody := false, passes := [] })
  else
    let scaledWidth0 := inp.width.toNat * 3 / 4
    let scaledWidth := if scaledWidth0 < 1 then 1 else scaledWidth0
    let scaledHeight0 := inp.height.toNat * 3 / 4
    let scaledHeight := if scaledHeight0 < 1 then 1 else scaledHeight0
    let (_, rt1) := ensureSized s.rt scaledWidth scaledHeight
    ({ lastFrameTime := inp.now, prevCKey := inp.cPressed, autopilot := ap2,
       rt := rt1 },
     { ranBody := true, passes := framePasses bloomIterationsDefault })

/-! ## Theorems -/

theorem floor1_eq_max (d : ℕ) : (if d < 1 then 1 else d) = max 1 d := by
  rcases Nat.lt_or_ge d 1 with hd | hd
  · interval_cases d
    simp
  · rw [if_neg (Nat.not_lt.2 hd), Nat.max_eq_right hd]

theorem downDim_eq_max (rd i : ℕ) : downDim rd i = max 1 (rd >>> (i + 1)) := by
  rw [downDim]
  exact floor1_eq_max _

theorem upDim_eq_max (rd i : ℕ) : upDim rd i = max 1 (rd >>> i) := by
  rw [upDim]
  exact floor1_eq_max _

theorem allocMipsAux_down_length (rw rh : ℕ) :
    ∀ n ctr i, (allocMipsAux rw rh ctr i n).1.length = n := by
  intro n
  induction n with
  | zero => intro ctr i; rfl
  | succ n ih => intro ctr i; simp [allocMipsAux, createColorTexture, ih]

theorem allocMipsAux_up_length (rw rh : ℕ) :
    ∀ n ctr i, (allocMipsAux rw rh ctr i n).2.1.length = n := by
  intro n
  induction n with
  | zero => intro ctr i; rfl
  | succ n ih => intro ctr i; simp [allocMipsAux, createColorTexture, ih]

theorem allocMipsAux_down_get (rw rh : ℕ) :
    ∀ n ctr i j, j < n →
      (allocMipsAux rw rh ctr i n).1[j]? =
        some ⟨ctr + 2 * j + 1, downDim rw (i + j), downDim rh (i + j)⟩ := by
  intro n
  induction n with
  | zero => intro ctr i j hj; exact absurd hj (Nat.not_lt_zero j)
  | succ n ih =>
    intro ctr i j hj
    cases j with
    | zero => simp [allocMipsAux, createColorTexture]
    | succ j =>
      have hj' : j < n := Nat.lt_of_succ_lt_succ hj
      simp only [allocMipsAux, createColorTexture, List.getElem?_cons_succ]
      rw [ih (ctr + 2) (i + 1) j hj']
      have h1 : i + 1 + j = i + (j + 1) := by omega
      have h2 : ctr + 2 + 2 * j + 1 = ctr + 2 * (j + 1) + 1 := by omega
      rw [h1, h2]

theorem allocMipsAux_up_get (rw rh : ℕ) :
    ∀ n ctr i j, j < n →
      (allocMipsAux rw rh ctr i n).2.1[j]? =
        some ⟨ctr + 2 * j + 2, upDim rw (i + j), upDim rh (i + j)⟩ := by
  intro n
  induction n with
  | zero => intro ctr i j hj; exact absurd hj (Nat.not_lt_zero j)
  | succ n ih =>
    intro ctr i j hj
    cases j with
    | zero => simp [allocMipsAux, createColorTexture]
    | succ j =>
      have hj' : j < n := Nat.lt_of_succ_lt_succ hj
      simp only [allocMipsAux, createColorTexture, List.getElem?_cons_succ]
      rw [ih (ctr + 2) (i + 1) j hj']
      have h1 : i + 1 + j = i + (j + 1) := by omega
      have h2 : ctr + 2 + 2 * j + 2 = ctr + 2 * (j + 1) + 2 := by omega
      rw [h1, h2]

/-- `ensureSized` when the resize condition fires: the explicit allocated
state. -/
theorem ensureSized_pos (s : RenderTargetSet) (w h : ℕ)
    (hc : w ≠ s.renderWidth ∨ h ≠ s.renderHeight ∨ s.texBlackhole.id = 0) :
    ensureSized s w h =
      (true,
        { renderWidth := w, renderHeight := h,
          texBlackhole := ⟨s.nextId + 1, w, h⟩, fboBlackhole := s.nextId + 2,
          texBrightness := ⟨s.nextId + 3, w, h⟩,
          texBloomFinal := ⟨s.nextId + 4, w, h⟩,
          texTonemapped := ⟨s.nextId + 5, w, h⟩,
          texDownsampled := (allocMipsAux w h (s.nextId + 5) 0 kMaxBloomIter).1,
          texUpsampled := (allocMipsAux w h (s.nextId + 5) 0 kMaxBloomIter).2.1,
          nextId := (allocMipsAux w h (s.nextId + 5) 0 kMaxBloomIter).2.2 }) := by
  simp [ensureSized, if_pos hc, createColorTexture]

/-- `ensureSized` when the sizes already match: a no-op returning `false`. -/
theorem ensureSized_neg (s : RenderTargetSet) (w h : ℕ)
    (hc : ¬(w ≠ s.renderWidth ∨ h ≠ s.renderHeight ∨ s.texBlackhole.id = 0)) :
    ensureSized s w h = (false, s) := by
  rw [ensureSized, if_neg hc]

/-- C1: the render-target resize check is idempotent — a second run with the
same scaled resolution performs no reallocation and leaves the target set
(hence every texture handle) unchanged; and whenever the computed resolution
differs from the remembered one (or nothing is allocated yet), the call
reallocates, after which every chain target has the current call's
resolution (mip targets at the `>>`-and-floor-to-1 sizes). -/
theorem spec_C1_resize_idempotent (s : RenderTargetSet) (w h : ℕ) :
    ((ensureSized (ensureSized s w h).2 w h).1 = false ∧
      (ensureSized (ensureSized s w h).2 w h).2 = (ensureSized s w h).2) ∧
    ((w ≠ s.renderWidth ∨ h ≠ s.renderHeight ∨ s.texBlackhole.id = 0) →
      (ensureSized s w h).1 = true ∧
      (ensureSized s w h).2.renderWidth = w ∧
      (ensureSized s w h).2.renderHeight = h ∧
      (ensureSized s w h).2.texBlackhole.w = w ∧
      (ensureSized s w h).2.texBlackhole.h = h ∧
      (ensureSized s w h).2.texBrightness.w = w ∧
      (ensureSized s w h).2.texBrightness.h = h ∧
      (ensureSized s w h).2.texBloomFinal.w = w ∧
      (ensureSized s w h).2.texBloomFinal.h = h ∧
      (ensureSized s w h).2.texTonemapped.w = w ∧
      (ensureSized s w h).2.texTonemapped.h = h ∧
      ∀ i, i < kMaxBloomIter →
        (ensureSized s w h).2.texDownsampled[i]?.map (fun tex => (tex.w, tex.h)) =
          some (max 1 (w >>> (i + 1)), max 1 (h >>> (i + 1))) ∧
        (ensureSized s w h).2.texUpsampled[i]?.map (fun tex => (tex.w, tex.h)) =
          some (max 1 (w >>> i), max 1 (h >>> i))) := by
  constructor
  · by_cases hc : w ≠ s.renderWidth ∨ h ≠ s.renderHeight ∨ s.texBlackhole.id = 0
    · rw [ensureSized_pos s w h hc]
      rw [ensureSized_neg _ w h (by simp)]
      exact ⟨rfl, rfl⟩
    · have h1 := ensureSized_neg s w h hc
      have h2 : ensureSized ((false, s) : Bool × RenderTargetSet).2 w h = (false, s) := h1
      rw [h1, h2]
      exact ⟨rfl, rfl⟩
  · intro hc
    rw [ensureSized_pos s w h hc]
    refine ⟨rfl, rfl, rfl, rfl, rfl, rfl, rfl, rfl, rfl, rfl, rfl, ?_⟩
    intro i hi
    rw [allocMipsAux_down_get w h kMaxBloomIter (s.nextId + 5) 0 i hi,
      allocMipsAux_up_get w h kMaxBloomIter (s.nextId + 5) 0 i hi]
    simp [downDim_eq_max, upDim_eq_max]

theorem spec_C1_resize_idempotent_witness :
    ((ensureSized (ensureSized RenderTargetSet.init 512 512).2 512 512).1 = false ∧
      (ensureSized (ensureSized RenderTargetSet.init 512 512).2 512 512).2 =
        (ensureSized RenderTargetSet.init 512 512).2) ∧
    (ensureSized RenderTargetSet.init 512 512).1 = true ∧
    (ensureSized RenderTargetSet.init 512 512).2.texDownsampled[2]?.map
      (fun tex => (tex.w, tex.h)) = some (64, 64) := by
  obtain ⟨h1, h2⟩ := spec_C1_resize_idempotent RenderTargetSet.init 512 512
  refine ⟨h1, (h2 (by decide)).1, ?_⟩
  have := ((h2 (by decide)).2.2.2.2.2.2.2.2.2.2.2 2 (by decide)).1
  simpa using this

/-- C2: for every mip level `i < kMaxBloomIter` and render resolution
`(w, h)` with both axes ≥ 1, whenever the resize check reallocates, the
downsample target for level `i` gets size `(w >> (i+1), h >> (i+1))` floored
to 1 per axis, the upsample target gets `(w >> i, h >> i)` floored to 1, the
downsample and upsample target counts both equal the configured level count
`kMaxBloomIter`; for `kMaxBloomIter = 5` at `(512, 512)` the downsample
widths are `256, 128, 64, 32, 16`. -/
theorem spec_C2_mip_sizes (s : RenderTargetSet) (w h i : ℕ) (_hw : 1 ≤ w)
    (_hh : 1 ≤ h) (hi : i < kMaxBloomIter)
    (halloc : (ensureSized s w h).1 = true) :
    (ensureSized s w h).2.texDownsampled[i]?.map (fun tex => (tex.w, tex.h)) =
      some (max 1 (w >>> (i + 1)), max 1 (h >>> (i + 1))) ∧
    (ensureSized s w h).2.texUpsampled[i]?.map (fun tex => (tex.w, tex.h)) =
      some (max 1 (w >>> i), max 1 (h >>> i)) ∧
    (ensureSized s w h).2.texDownsampled.length = kMaxBloomIter ∧
    (ensureSized s w h).2.texUpsampled.length = kMaxBloomIter ∧
    (ensureSized RenderTargetSet.init 512 512).2.texDownsampled.map Tex.w =
      [256, 128, 64, 32, 16] := by
  by_cases hc : w ≠ s.renderWidth ∨ h ≠ s.renderHeight ∨ s.texBlackhole.id = 0
  · rw [ensureSized_pos s w h hc]
    refine ⟨?_, ?_, ?_, ?_, ?_⟩
    · rw [allocMipsAux_down_get w h kMaxBloomIter (s.nextId + 5) 0 i hi]
      simp [downDim_eq_max]
    · rw [allocMipsAux_up_get w h kMaxBloomIter (s.nextId + 5) 0 i hi]
      simp [upDim_eq_max]
    · exact allocMipsAux_down_length w h kMaxBloomIter (s.nextId + 5) 0
    · exact allocMipsAux_up_length w h kMaxBloomIter (s.nextId + 5) 0
    · decide
  · rw [ensureSized_neg s w h hc] at halloc
    exact absurd halloc (by simp)

theorem spec_C2_mip_sizes_witness :
    (1 ≤ 512 ∧ 1 ≤ 512 ∧ 0 < kMaxBloomIter ∧
      (ensureSized RenderTargetSet.init 512 512).1 = true) ∧
    (ensureSized RenderTargetSet.init 512 512).2.texDownsampled[0]?.map
      (fun tex => (tex.w, tex.h)) = some (256, 256) ∧
    (ensureSized RenderTargetSet.init 512 512).2.texDownsampled.map Tex.w =
      [256, 128, 64, 32, 16] := by
  have h := spec_C2_mip_sizes RenderTargetSet.init 512 512 0 (by decide)
    (by decide) (by decide) (by decide)
  exact ⟨⟨by decide, by decide, by decide, by decide⟩, by simpa using h.1, h.2.2.2.2⟩

theorem upsamplePasses_get (N w h j : ℕ) (hj : j < N) :
    (upsamplePasses N w h)[j]? = some (upsamplePassAt N w h (N - 1 - j)) := by
  rw [upsamplePasses, List.getElem?_map, List.getElem?_reverse (by simpa using hj)]
  simp only [List.length_range]
  rw [List.getElem?_range (show N - 1 - j < N by omega)]
  rfl

/-- C3: the upsample-and-combine chain processes the levels in strictly
decreasing order `N-1, …, 0`; the coarsest pass reads `downsampled[N-1]`,
every lower level reads `upsampled[level+1]`, which the directly preceding
pass of the same phase has just written; each pass writes
`upsampled[level]` at resolution `(w >> level, h >> level)` floored to 1;
and the final composite consumes `upsampled[0]`. -/
theorem spec_C3_upsample_chain (N w h : ℕ) (hN : 1 ≤ N) :
    (upsamplePasses N w h).length = N ∧
    (∀ j, j < N → (upsamplePasses N w h)[j]? =
      some (upsamplePassAt N w h (N - 1 - j))) ∧
    (upsamplePassAt N w h (N - 1)).texture0 = .downsampled (N - 1) ∧
    (∀ level, level < N - 1 →
      (upsamplePassAt N w h level).texture0 = .upsampled (level + 1)) ∧
    (∀ level, (upsamplePassAt N w h level).target = .upsampled level ∧
      (upsamplePassAt N w h level).width = max 1 (w >>> level) ∧
      (upsamplePassAt N w h level).height = max 1 (h >>> level)) ∧
    (∀ j, 0 < j → j < N →
      (upsamplePasses N w h)[j]?.map BloomPass.texture0 =
        some (.upsampled (N - j)) ∧
      (upsamplePasses N w h)[j - 1]?.map BloomPass.target =
        some (.upsampled (N - j))) ∧
    (bloomCompositePass w h).texture1 = some (.upsampled 0) := by
  refine ⟨by simp [upsamplePasses], fun j hj => upsamplePasses_get N w h j hj,
    ?_, ?_, ?_, ?_, rfl⟩
  · simp [upsamplePassAt]
  · intro level hlevel
    simp [upsamplePassAt, Nat.ne_of_lt hlevel]
  · intro level
    refine ⟨rfl, ?_, ?_⟩
    · show (if w >>> level < 1 then 1 else w >>> level) = max 1 (w >>> level)
      exact floor1_eq_max _
    · show (if h >>> level < 1 then 1 else h >>> level) = max 1 (h >>> level)
      exact floor1_eq_max _
  · intro j hj0 hjN
    rw [upsamplePasses_get N w h j hjN, upsamplePasses_get N w h (j - 1) (by omega)]
    have hne : N - 1 - j ≠ N - 1 := by omega
    have h1 : N - 1 - j + 1 = N - j := by omega
    have h2 : N - 1 - (j - 1) = N - j := by omega
    simp [upsamplePassAt, hne, h1, h2]

theorem spec_C3_upsample_chain_witness :
    (1 ≤ 5 ∧ (upsamplePasses 5 512 512).length = 5) ∧
    (upsamplePasses 5 512 512)[0]?.map BloomPass.texture0 =
      some (.downsampled 4) ∧
    (upsamplePasses 5 512 512)[2]?.map BloomPass.texture0 =
      some (.upsampled 3) ∧
    (upsamplePasses 5 512 512)[1]?.map BloomPass.target =
      some (.upsampled 3) ∧
    (bloomCompositePass 512 512).texture1 = some (.upsampled 0) := by
  have h := spec_C3_upsample_chain 5 512 512 (by norm_num)
  exact ⟨⟨by norm_num, h.1⟩, by decide, (h.2.2.2.2.2.1 2 (by norm_num) (by norm_num)).1,
    (h.2.2.2.2.2.1 2 (by norm_num) (by norm_num)).2, h.2.2.2.2.2.2⟩

/-- C4: autopilot progress `t` always stays in `[0, 1]`: both the per-frame
advance and the toggle preserve the interval; an activation edge (toggle
while inactive) resets `t` to 0; from `t = 0` a single advance with
`deltaTime = autopilotDuration` drives `t` exactly to 1; once at 1, any
further nonnegative advance leaves `t` at 1 and the autopilot active (no
auto-deactivation); a deactivation edge freezes `t` without resetting it. -/
theorem spec_C4_autopilot (s : AutopilotState) (dt : ℚ) (ht0 : 0 ≤ s.t)
    (ht1 : s.t ≤ 1) (hdt : 0 ≤ dt) :
    (0 ≤ (autopilotAdvance s dt).t ∧ (autopilotAdvance s dt).t ≤ 1) ∧
    (0 ≤ (autopilotToggle s).t ∧ (autopilotToggle s).t ≤ 1) ∧
    (s.active = false →
      (autopilotToggle s).active = true ∧ (autopilotToggle s).t = 0) ∧
    (s.active = true → s.t = 0 →
      (autopilotAdvance s autopilotDuration).t = 1) ∧
    (s.active = true → s.t = 1 →
      (autopilotAdvance s dt).t = 1 ∧ (autopilotAdvance s dt).active = true) ∧
    (s.active = true →
      (autopilotToggle s).active = false ∧ (autopilotToggle s).t = s.t) := by
  have hdur : (0 : ℚ) ≤ autopilotDuration := by norm_num [autopilotDuration]
  have hd : (0 : ℚ) ≤ dt / autopilotDuration := div_nonneg hdt hdur
  refine ⟨?_, ?_, ?_, ?_, ?_, ?_⟩
  · rw [autopilotAdvance]
    split
    · exact ⟨le_min (by norm_num) (add_nonneg ht0 hd), min_le_left 1 _⟩
    · exact ⟨ht0, ht1⟩
  · rw [autopilotToggle]
    split
    · exact ⟨le_refl 0, by norm_num⟩
    · exact ⟨ht0, ht1⟩
  · intro ha
    rw [autopilotToggle, ha]
    exact ⟨rfl, rfl⟩
  · intro ha ht
    rw [autopilotAdvance, ha, if_pos rfl, ht]
    show min 1 (0 + autopilotDuration / autopilotDuration) = 1
    rw [autopilotDuration]
    norm_num
  · intro ha ht
    rw [autopilotAdvance, ha, if_pos rfl, ht]
    constructor
    · show min 1 (1 + dt / autopilotDuration) = 1
      exact min_eq_left (by linarith)
    · rfl
  · intro ha
    rw [autopilotToggle, ha]
    exact ⟨rfl, rfl⟩

theorem spec_C4_autopilot_witness :
    ((0 : ℚ) ≤ (⟨true, 1⟩ : AutopilotState).t ∧
      (⟨true, 1⟩ : AutopilotState).t ≤ 1 ∧ (0 : ℚ) ≤ 2) ∧
    (autopilotAdvance ⟨true, 1⟩ 2).t = 1 ∧
    (autopilotAdvance ⟨true, 1⟩ 2).active = true ∧
    (autopilotAdvance ⟨true, 0⟩ autopilotDuration).t = 1 := by
  have h := spec_C4_autopilot ⟨true, 1⟩ 2 (by norm_num) (by norm_num) (by norm_num)
  have h0 := spec_C4_autopilot ⟨true, 0⟩ 2 (by norm_num) (by norm_num) (by norm_num)
  have hs := h.2.2.2.2.1 rfl rfl
  exact ⟨⟨by norm_num, by norm_num, by norm_num⟩, hs.1, hs.2,
    h0.2.2.2.1 rfl rfl⟩

/-- C5: the camera controller picks exactly one placement mode per frame in
the strict priority order autopilot > manual pointer control > front preset >
top preset > default orbit-view; with autopilot active the position is the
autopilot path position regardless of every other flag; the look-at target is
the world origin in every mode; and the default mode at `time = 0` puts the
camera at `(-15, 0, 0)`. -/
theorem spec_C5_camera_modes (t : ℝ) (w h : ℤ) (mx my : ℝ)
    (mc fv tv av : Bool) (roll fov : ℝ) (ap : Vec3) :
    (computeCameraState t w h mx my mc fv tv roll fov true ap).pos = ap ∧
    selectCameraMode mc fv tv true = .autopilot ∧
    selectCameraMode true fv tv false = .manual ∧
    selectCameraMode false true tv false = .front ∧
    selectCameraMode false false true false = .top ∧
    selectCameraMode false false false false = .defaultOrbit ∧
    (computeCameraState t w h mx my mc fv tv roll fov av ap).target = ⟨0, 0, 0⟩ ∧
    (computeCameraState t w h mx my false true tv roll fov false ap).pos =
      ⟨10, 1, 10⟩ ∧
    (computeCameraState t w h mx my false false true roll fov false ap).pos =
      ⟨15, 15, 0⟩ ∧
    (computeCameraState 0 w h mx my false false false roll fov false ap).pos =
      ⟨-15, 0, 0⟩ := by
  refine ⟨?_, rfl, rfl, rfl, rfl, rfl, rfl, ?_, ?_, ?_⟩ <;>
    simp [computeCameraState]

/-- C10: the orbit computation is a pure function of elapsed time, so the two
per-frame evaluations — the HUD probe-status sampling and the rendered
satellite sampling — always return identical position and velocity vectors
within a frame. -/
theorem spec_C10_orbit_deterministic (now : ℝ) :
    hudProbeStatus now = renderedSatellite now ∧
    (hudProbeStatus now).position = (computeSatelliteOrbit now).position ∧
    (hudProbeStatus now).velocity = (computeSatelliteOrbit now).velocity :=
  ⟨rfl, rfl, rfl⟩

/-- C6 counterexample: with a zero-area viewport the frame body is skipped
(`ranBody = false`, no passes, no reallocation), yet — contrary to the claim
that *all* per-frame animation state is unchanged — the stored frame
timestamp and the autopilot progress are updated before the viewport check:
from `lastFrameTime = 0`, active autopilot with `t = 0`, and `now = 18`, the
skipped frame leaves `t = 1 ≠ 0` and `lastFrameTime = 18 ≠ 0`. -/
theorem spec_C6_skip_counterexample :
    ((⟨18, false, 0, 0⟩ : FrameInput).width ≤ 0) ∧
    (frameStep ⟨0, false, ⟨true, 0⟩, RenderTargetSet.init⟩
      ⟨18, false, 0, 0⟩).2.ranBody = false ∧
    (frameStep ⟨0, false, ⟨true, 0⟩, RenderTargetSet.init⟩
      ⟨18, false, 0, 0⟩).1.autopilot.t ≠
      (⟨0, false, ⟨true, 0⟩, RenderTargetSet.init⟩ : FrameState).autopilot.t ∧
    (frameStep ⟨0, false, ⟨true, 0⟩, RenderTargetSet.init⟩
      ⟨18, false, 0, 0⟩).1.lastFrameTime ≠
      (⟨0, false, ⟨true, 0⟩, RenderTargetSet.init⟩ : FrameState).lastFrameTime := by
  refine ⟨by decide, ?_, ?_, ?_⟩ <;>
    norm_num [frameStep, autopilotAdvance, autopilotToggle, autopilotDuration]

/-- C6 (amended): for every frame whose viewport width or height is ≤ 0, the
rest of the frame body is skipped and the previous buffer presented: no
render-target resize or reallocation occurs and no rendering pass runs —
but, because the timestamp update, the C-key edge handling and the autopilot
advance precede the viewport check, the stored frame timestamp becomes `now`
and the autopilot state is advanced exactly as on a rendered frame. -/
theorem spec_C6_skip_amended (s : FrameState) (inp : FrameInput)
    (hz : inp.width ≤ 0 ∨ inp.height ≤ 0) :
    (frameStep s inp).2.ranBody = false ∧
    (frameStep s inp).2.passes = [] ∧
    (frameStep s inp).1.rt = s.rt ∧
    (frameStep s inp).1.lastFrameTime = inp.now ∧
    (frameStep s inp).1.prevCKey = inp.cPressed ∧
    (frameStep s inp).1.autopilot =
      autopilotAdvance
        (if inp.cPressed && !s.prevCKey then autopilotToggle s.autopilot
          else s.autopilot)
        (inp.now - s.lastFrameTime) := by
  rw [frameStep]
  rw [if_pos hz]
  exact ⟨rfl, rfl, rfl, rfl, rfl, rfl⟩

theorem spec_C6_skip_amended_witness :
    ((⟨5, true, -3, 100⟩ : FrameInput).width ≤ 0 ∨
      (⟨5, true, -3, 100⟩ : FrameInput).height ≤ 0) ∧
    (frameStep ⟨0, false, ⟨false, 0⟩, RenderTargetSet.init⟩
      ⟨5, true, -3, 100⟩).2.ranBody = false ∧
    (frameStep ⟨0, false, ⟨false, 0⟩, RenderTargetSet.init⟩
      ⟨5, true, -3, 100⟩).2.passes = [] ∧
    (frameStep ⟨0, false, ⟨false, 0⟩, RenderTargetSet.init⟩
      ⟨5, true, -3, 100⟩).1.rt = RenderTargetSet.init := by
  have h := spec_C6_skip_amended ⟨0, false, ⟨false, 0⟩, RenderTargetSet.init⟩
    ⟨5, true, -3, 100⟩ (Or.inl (by decide))
  exact ⟨Or.inl (by decide), h.1, h.2.1, h.2.2.1⟩

theorem orbit_angle_pi : (20 * Real.pi / 3) * 0.15 = Real.pi := by
  have h : (0.15 : ℝ) = 3 / 20 := by norm_num
  rw [h]
  ring

theorem orbit_vert_pi : Real.sin ((20 * Real.pi / 3) * 0.4) = Real.sqrt 3 / 2 := by
  have h : (20 * Real.pi / 3) * (0.4 : ℝ) = Real.pi - Real.pi / 3 + 2 * Real.pi := by
    have h4 : (0.4 : ℝ) = 2 / 5 := by norm_num
    rw [h4]
    ring
  rw [h, Real.sin_add_two_pi, Real.sin_pi_sub, Real.sin_pi_div_three]

theorem orbitRadius_zero : orbitRadius 0 = 5.5 * (1 - 0.3) := by
  rw [orbitRadius, Real.cos_zero]
  norm_num

theorem orbitRadius_pi : orbitRadius Real.pi = 5.5 * (1 + 0.3) := by
  rw [orbitRadius, Real.cos_pi]
  norm_num

theorem orbit_position_zero :
    (computeSatelliteOrbit 0).position = ⟨5.5 * (1 - 0.3), 0, 0⟩ := by
  have hx : (0 : ℝ) * 0.15 = 0 := by norm_num
  have hv : (0 : ℝ) * 0.4 = 0 := by norm_num
  simp only [computeSatelliteOrbit, hx, hv, Real.cos_zero, Real.sin_zero]
  rw [orbitRadius, Real.cos_zero]
  apply Vec3.ext <;> norm_num

theorem orbit_position_pi :
    (computeSatelliteOrbit (20 * Real.pi / 3)).position =
      ⟨-(5.5 * (1 + 0.3)), 0.8 * (Real.sqrt 3 / 2), 0⟩ := by
  simp only [computeSatelliteOrbit, orbit_angle_pi, orbit_vert_pi, Real.cos_pi,
    Real.sin_pi]
  rw [orbitRadius, Real.cos_pi]
  apply Vec3.ext <;> norm_num

theorem orbit_norm_pi :
    (computeSatelliteOrbit (20 * Real.pi / 3)).position.norm =
      Real.sqrt 51.6025 := by
  rw [orbit_position_pi, Vec3.norm]
  have h3 : Real.sqrt 3 ^ 2 = 3 := Real.sq_sqrt (by norm_num)
  have h48 : (0.8 * (Real.sqrt 3 / 2)) ^ 2 = (0.48 : ℝ) := by
    rw [mul_pow, div_pow, h3]
    norm_num
  congr 1
  rw [h48]
  norm_num

theorem orbit_norm_pi_gt :
    5.5 * (1 + 0.3) < (computeSatelliteOrbit (20 * Real.pi / 3)).position.norm := by
  rw [orbit_norm_pi, show (5.5 * (1 + 0.3) : ℝ) = 7.15 by norm_num]
  exact (Real.lt_sqrt (by norm_num)).2 (by norm_num)

/-- C7 counterexample: at orbital angle `θ = π` (elapsed time `20π/3`, since
`θ = time · 0.15`), the magnitude of the returned position does **not** equal
`a(1+e) = 5.5 · 1.3 = 7.15`: the vertical oscillation term
`0.8 · sin(time · 0.4) = 0.8 · sin(8π/3) = 0.4·√3` is nonzero there, so the
magnitude is `√51.6025 > 7.15`. -/
theorem spec_C7_orbit_counterexample :
    (computeSatelliteOrbit (20 * Real.pi / 3)).position.norm ≠ 5.5 * (1 + 0.3) :=
  ne_of_gt orbit_norm_pi_gt

/-- C7 (amended): the planar elliptical radius `r(θ)` equals `a(1-e)` at
`θ = 0` (periapsis) and `a(1+e)` at `θ = π` (apoapsis), and the full position
magnitude equals `a(1-e)` at time 0 (where the vertical oscillation vanishes);
at `θ = π` however the position is `(-a(1+e), 0.8·sin(8π/3), 0)`, whose
magnitude strictly exceeds `a(1+e)` because of the vertical oscillation
term. -/
theorem spec_C7_orbit_amended :
    (computeSatelliteOrbit 0).position.norm = 5.5 * (1 - 0.3) ∧
    orbitRadius 0 = 5.5 * (1 - 0.3) ∧
    orbitRadius Real.pi = 5.5 * (1 + 0.3) ∧
    (computeSatelliteOrbit (20 * Real.pi / 3)).position =
      ⟨-(5.5 * (1 + 0.3)), 0.8 * (Real.sqrt 3 / 2), 0⟩ ∧
    5.5 * (1 + 0.3) < (computeSatelliteOrbit (20 * Real.pi / 3)).position.norm := by
  refine ⟨?_, orbitRadius_zero, orbitRadius_pi, orbit_position_pi, orbit_norm_pi_gt⟩
  rw [orbit_position_zero, Vec3.norm]
  have h : (5.5 * (1 - 0.3) : ℝ) ^ 2 + 0 ^ 2 + 0 ^ 2 = (5.5 * (1 - 0.3) : ℝ) ^ 2 := by
    norm_num
  rw [h, Real.sqrt_sq (by norm_num)]

theorem sineC_lt_pi : (3.14159265 : ℝ) < Real.pi :=
  lt_trans (by norm_num) Real.pi_gt_d20

theorem pi_sub_sineC_le : Real.pi - 3.14159265 ≤ 3.6e-9 := by
  have h := Real.pi_lt_d20
  norm_num at h ⊢
  linarith

theorem cos_ge_one_sub_half_sq (x : ℝ) : 1 - x ^ 2 / 2 ≤ Real.cos x := by
  rcases eq_or_ne x 0 with rfl | hx
  · norm_num [Real.cos_zero]
  · exact (Real.one_sub_sq_div_two_lt_cos hx).le

theorem cos_sineC_le : Real.cos 3.14159265 ≤ -1 + 2e-12 := by
  have hc : (3.14159265 : ℝ) = Real.pi - (Real.pi - 3.14159265) := by ring
  rw [hc, Real.cos_pi_sub]
  have h1 : 1 - (Real.pi - 3.14159265) ^ 2 / 2 ≤ Real.cos (Real.pi - 3.14159265) :=
    cos_ge_one_sub_half_sq _
  have h2 : (Real.pi - 3.14159265) ^ 2 ≤ (3.6e-9 : ℝ) ^ 2 :=
    pow_le_pow_left₀ (by linarith [sineC_lt_pi]) pi_sub_sineC_le 2
  have h3 : ((3.6e-9 : ℝ)) ^ 2 = 1.296e-17 := by norm_num
  linarith

theorem cos_sineC_gt : -1 < Real.cos 3.14159265 := by
  have hmem₁ : (3.14159265 : ℝ) ∈ Set.Icc 0 Real.pi := ⟨by norm_num, sineC_lt_pi.le⟩
  have hmem₂ : Real.pi ∈ Set.Icc 0 Real.pi := ⟨Real.pi_pos.le, le_refl _⟩
  have h := Real.strictAntiOn_cos hmem₁ hmem₂ sineC_lt_pi
  rw [Real.cos_pi] at h
  exact h

theorem easeInOutSine_bounds (t : ℝ) : 0 ≤ easeInOutSine t ∧ easeInOutSine t ≤ 1 := by
  rw [easeInOutSine]
  have h1 := Real.neg_one_le_cos (3.14159265 * t)
  have h2 := Real.cos_le_one (3.14159265 * t)
  constructor <;> linarith

theorem easeInOutSine_mono {t₁ t₂ : ℝ} (h2 : 0 ≤ t₁) (h3 : t₁ ≤ t₂) (h4 : t₂ ≤ 1) :
    easeInOutSine t₁ ≤ easeInOutSine t₂ := by
  rw [easeInOutSine, easeInOutSine]
  have hc0 : (0 : ℝ) ≤ 3.14159265 := by norm_num
  have hcos : Real.cos (3.14159265 * t₂) ≤ Real.cos (3.14159265 * t₁) := by
    apply Real.cos_le_cos_of_nonneg_of_le_pi
    · exact mul_nonneg hc0 h2
    · calc (3.14159265 : ℝ) * t₂ ≤ 3.14159265 * 1 :=
          mul_le_mul_of_nonneg_left h4 hc0
        _ ≤ Real.pi := by rw [mul_one]; exact sineC_lt_pi.le
    · exact mul_le_mul_of_nonneg_left h3 hc0
  linarith

theorem easeInOutSine_zero : easeInOutSine 0 = 0 := by
  rw [easeInOutSine, mul_zero, Real.cos_zero]
  norm_num

theorem easeInOutSine_one_lt : easeInOutSine 1 < 1 := by
  rw [easeInOutSine, mul_one]
  have h := cos_sineC_gt
  linarith

theorem easeInOutSine_one_ge : 1 - 1e-12 ≤ easeInOutSine 1 := by
  rw [easeInOutSine, mul_one]
  have h := cos_sineC_le
  linarith

theorem easeInOutSine_sym_bound (t : ℝ) :
    |easeInOutSine t + easeInOutSine (1 - t) - 1| ≤ 1e-6 := by
  have hsum : Real.cos (3.14159265 * t) + Real.cos (3.14159265 * (1 - t)) =
      2 * Real.cos (3.14159265 / 2) *
        Real.cos (3.14159265 * t - 3.14159265 / 2) := by
    rw [Real.cos_add_cos]
    congr 2
    · ring
    · ring
  have hD : easeInOutSine t + easeInOutSine (1 - t) - 1 =
      -(Real.cos (3.14159265 / 2) *
        Real.cos (3.14159265 * t - 3.14159265 / 2)) := by
    rw [easeInOutSine, easeInOutSine]
    linear_combination -hsum / 2
  rw [hD, abs_neg, abs_mul]
  have hδ0 : (0 : ℝ) ≤ (Real.pi - 3.14159265) / 2 := by linarith [sineC_lt_pi]
  have hX : |Real.cos (3.14159265 / 2)| ≤ 1.8e-9 := by
    have hhalf : (3.14159265 : ℝ) / 2 =
        Real.pi / 2 - (Real.pi - 3.14159265) / 2 := by ring
    rw [hhalf, Real.cos_pi_div_two_sub]
    rw [abs_of_nonneg (Real.sin_nonneg_of_nonneg_of_le_pi hδ0
      (by linarith [pi_sub_sineC_le, Real.pi_gt_three]))]
    have hs := Real.sin_le hδ0
    linarith [pi_sub_sineC_le]
  calc |Real.cos (3.14159265 / 2)| *
        |Real.cos (3.14159265 * t - 3.14159265 / 2)| ≤ 1.8e-9 * 1 :=
      mul_le_mul hX (Real.abs_cos_le_one _) (abs_nonneg _) (by norm_num)
    _ ≤ 1e-6 := by norm_num

theorem easeInOutSine_half_bound : |easeInOutSine 0.5 - 0.5| ≤ 1e-6 := by
  have h := easeInOutSine_sym_bound 0.5
  have he : (1 : ℝ) - 0.5 = 0.5 := by norm_num
  rw [he] at h
  have hh : easeInOutSine 0.5 + easeInOutSine 0.5 - 1 =
      2 * (easeInOutSine 0.5 - 0.5) := by ring
  rw [hh, abs_mul] at h
  have h2 : |(2 : ℝ)| = 2 := by norm_num
  rw [h2] at h
  linarith [abs_nonneg (easeInOutSine 0.5 - 0.5)]

theorem easeInOutCubic_nonneg {t : ℝ} (h0 : 0 ≤ t) (h1 : t ≤ 1) :
    0 ≤ easeInOutCubic t := by
  rw [easeInOutCubic]
  split_ifs with hlt
  · have ht3 : (0 : ℝ) ≤ t * t * t := mul_nonneg (mul_nonneg h0 h0) h0
    linarith
  · push_neg at hlt
    have hu0 : (0 : ℝ) ≤ -2 * t + 2 := by linarith
    have hu1 : (-2 * t + 2 : ℝ) ≤ 1 := by linarith
    have h3 : (-2 * t + 2 : ℝ) ^ (3 : ℕ) ≤ 1 := pow_le_one₀ hu0 hu1
    linarith

theorem easeInOutCubic_le_one {t : ℝ} (h0 : 0 ≤ t) (h1 : t ≤ 1) :
    easeInOutCubic t ≤ 1 := by
  rw [easeInOutCubic]
  split_ifs with hlt
  · have h3 : t ^ (3 : ℕ) ≤ (0.5 : ℝ) ^ (3 : ℕ) :=
      pow_le_pow_left₀ h0 (le_of_lt hlt) 3
    nlinarith
  · have hu0 : (0 : ℝ) ≤ -2 * t + 2 := by linarith
    have h3 : (0 : ℝ) ≤ (-2 * t + 2) ^ (3 : ℕ) := pow_nonneg hu0 3
    linarith

theorem easeInOutCubic_mono {t₁ t₂ : ℝ} (h2 : 0 ≤ t₁) (h3 : t₁ ≤ t₂)
    (h4 : t₂ ≤ 1) : easeInOutCubic t₁ ≤ easeInOutCubic t₂ := by
  rw [easeInOutCubic, easeInOutCubic]
  split_ifs with ha hb hb
  · have h := pow_le_pow_left₀ h2 h3 3
    nlinarith
  · push_neg at hb
    have hl : t₁ ^ (3 : ℕ) ≤ (0.5 : ℝ) ^ (3 : ℕ) :=
      pow_le_pow_left₀ h2 (le_of_lt ha) 3
    have hu0 : (0 : ℝ) ≤ -2 * t₂ + 2 := by linarith
    have hu1 : (-2 * t₂ + 2 : ℝ) ≤ 1 := by linarith
    have hr : (-2 * t₂ + 2 : ℝ) ^ (3 : ℕ) ≤ 1 := pow_le_one₀ hu0 hu1
    nlinarith
  · push_neg at ha
    exact absurd (lt_of_le_of_lt (le_trans ha h3) hb) (by norm_num)
  · push_neg at ha hb
    have hu0 : (0 : ℝ) ≤ -2 * t₂ + 2 := by linarith
    have hle : (-2 * t₂ + 2 : ℝ) ≤ -2 * t₁ + 2 := by linarith
    have h := pow_le_pow_left₀ hu0 hle 3
    linarith

theorem easeInOutCubic_sym (t : ℝ) :
    easeInOutCubic t + easeInOutCubic (1 - t) = 1 := by
  rw [easeInOutCubic, easeInOutCubic]
  by_cases h : t < 0.5
  · rw [if_pos h, if_neg (not_lt.2 (by linarith))]
    ring
  · push_neg at h
    by_cases h' : 1 - t < 0.5
    · rw [if_neg (not_lt.2 h), if_pos h']
      ring
    · push_neg at h'
      have ht : t = 0.5 := by linarith
      rw [if_neg (not_lt.2 h), if_neg (not_lt.2 h'), ht]
      norm_num

theorem easeInOutCubic_zero : easeInOutCubic 0 = 0 := by
  rw [easeInOutCubic, if_pos (by norm_num)]
  norm_num

theorem easeInOutCubic_one : easeInOutCubic 1 = 1 := by
  rw [easeInOutCubic, if_neg (by norm_num)]
  norm_num

theorem easeInOutCubic_half : easeInOutCubic 0.5 = 0.5 := by
  rw [easeInOutCubic, if_neg (by norm_num)]
  norm_num

theorem easeInOutQuint_nonneg {t : ℝ} (h0 : 0 ≤ t) (h1 : t ≤ 1) :
    0 ≤ easeInOutQuint t := by
  rw [easeInOutQuint]
  split_ifs with hlt
  · have ht5 : (0 : ℝ) ≤ t * t * t * t * t :=
      mul_nonneg (mul_nonneg (mul_nonneg (mul_nonneg h0 h0) h0) h0) h0
    linarith
  · push_neg at hlt
    have hu0 : (0 : ℝ) ≤ -2 * t + 2 := by linarith
    have hu1 : (-2 * t + 2 : ℝ) ≤ 1 := by linarith
    have h5 : (-2 * t + 2 : ℝ) ^ (5 : ℕ) ≤ 1 := pow_le_one₀ hu0 hu1
    linarith

theorem easeInOutQuint_le_one {t : ℝ} (h0 : 0 ≤ t) (h1 : t ≤ 1) :
    easeInOutQuint t ≤ 1 := by
  rw [easeInOutQuint]
  split_ifs with hlt
  · have h5 : t ^ (5 : ℕ) ≤ (0.5 : ℝ) ^ (5 : ℕ) :=
      pow_le_pow_left₀ h0 (le_of_lt hlt) 5
    nlinarith
  · have hu0 : (0 : ℝ) ≤ -2 * t + 2 := by linarith
    have h5 : (0 : ℝ) ≤ (-2 * t + 2) ^ (5 : ℕ) := pow_nonneg hu0 5
    linarith

theorem easeInOutQuint_mono {t₁ t₂ : ℝ} (h2 : 0 ≤ t₁) (h3 : t₁ ≤ t₂)
    (h4 : t₂ ≤ 1) : easeInOutQuint t₁ ≤ easeInOutQuint t₂ := by
  rw [easeInOutQuint, easeInOutQuint]
  split_ifs with ha hb hb
  · have h := pow_le_pow_left₀ h2 h3 5
    nlinarith
  · push_neg at hb
    have hl : t₁ ^ (5 : ℕ) ≤ (0.5 : ℝ) ^ (5 : ℕ) :=
      pow_le_pow_left₀ h2 (le_of_lt ha) 5
    have hu0 : (0 : ℝ) ≤ -2 * t₂ + 2 := by linarith
    have hu1 : (-2 * t₂ + 2 : ℝ) ≤ 1 := by linarith
    have hr : (-2 * t₂ + 2 : ℝ) ^ (5 : ℕ) ≤ 1 := pow_le_one₀ hu0 hu1
    nlinarith
  · push_neg at ha
    exact absurd (lt_of_le_of_lt (le_trans ha h3) hb) (by norm_num)
  · push_neg at ha hb
    have hu0 : (0 : ℝ) ≤ -2 * t₂ + 2 := by linarith
    have hle : (-2 * t₂ + 2 : ℝ) ≤ -2 * t₁ + 2 := by linarith
    have h := pow_le_pow_left₀ hu0 hle 5
    linarith

theorem easeInOutQuint_sym (t : ℝ) :
    easeInOutQuint t + easeInOutQuint (1 - t) = 1 := by
  rw [easeInOutQuint, easeInOutQuint]
  by_cases h : t < 0.5
  · rw [if_pos h, if_neg (not_lt.2 (by linarith))]
    ring
  · push_neg at h
    by_cases h' : 1 - t < 0.5
    · rw [if_neg (not_lt.2 h), if_pos h']
      ring
    · push_neg at h'
      have ht : t = 0.5 := by linarith
      rw [if_neg (not_lt.2 h), if_neg (not_lt.2 h'), ht]
      norm_num

theorem easeInOutQuint_zero : easeInOutQuint 0 = 0 := by
  rw [easeInOutQuint, if_pos (by norm_num)]
  norm_num

theorem easeInOutQuint_one : easeInOutQuint 1 = 1 := by
  rw [easeInOutQuint, if_neg (by norm_num)]
  norm_num

theorem easeInOutQuint_half : easeInOutQuint 0.5 = 0.5 := by
  rw [easeInOutQuint, if_neg (by norm_num)]
  norm_num

/-- C9 counterexample: `easeInOutSine 1 ≠ 1`.  The source's sine easing uses
the literal `3.14159265`, which is strictly less than `π`, so
`cos(3.14159265) > -1` and the endpoint value is strictly below 1 (by less
than `10⁻¹²`); the claimed exact identities `f(1) = 1`, `f(0.5) = 0.5` and
`f(t) + f(1-t) = 1` therefore fail for `easeInOutSine`. -/
theorem spec_C9_easing_counterexample : easeInOutSine 1 ≠ 1 :=
  ne_of_lt easeInOutSine_one_lt

/-- C9 (amended): `easeInOutCubic` and `easeInOutQuint` map `[0,1]` into
`[0,1]`, are monotone non-decreasing on `[0,1]`, satisfy `f(0)=0`, `f(1)=1`,
`f(0.5)=0.5` and the exact symmetry `f(t)+f(1-t)=1`.  `easeInOutSine` — which
uses the approximation `3.14159265` in place of `π` — maps `[0,1]` into
`[0,1]`, is monotone non-decreasing on `[0,1]` and satisfies `f(0)=0` exactly,
but its endpoint, midpoint and symmetry identities hold only approximately:
`f(1) ∈ [1-10⁻¹², 1)`, `|f(t)+f(1-t)-1| ≤ 10⁻⁶` and
`|f(0.5)-0.5| ≤ 10⁻⁶`. -/
theorem spec_C9_easing_amended (t t₁ t₂ : ℝ) (h0 : 0 ≤ t) (h1 : t ≤ 1)
    (h2 : 0 ≤ t₁) (h3 : t₁ ≤ t₂) (h4 : t₂ ≤ 1) :
    (0 ≤ easeInOutCubic t ∧ easeInOutCubic t ≤ 1) ∧
    easeInOutCubic t₁ ≤ easeInOutCubic t₂ ∧
    (easeInOutCubic 0 = 0 ∧ easeInOutCubic 1 = 1 ∧
      easeInOutCubic 0.5 = 0.5) ∧
    easeInOutCubic t + easeInOutCubic (1 - t) = 1 ∧
    (0 ≤ easeInOutQuint t ∧ easeInOutQuint t ≤ 1) ∧
    easeInOutQuint t₁ ≤ easeInOutQuint t₂ ∧
    (easeInOutQuint 0 = 0 ∧ easeInOutQuint 1 = 1 ∧
      easeInOutQuint 0.5 = 0.5) ∧
    easeInOutQuint t + easeInOutQuint (1 - t) = 1 ∧
    (0 ≤ easeInOutSine t ∧ easeInOutSine t ≤ 1) ∧
    easeInOutSine t₁ ≤ easeInOutSine t₂ ∧
    easeInOutSine 0 = 0 ∧
    (1 - 1e-12 ≤ easeInOutSine 1 ∧ easeInOutSine 1 < 1) ∧
    |easeInOutSine t + easeInOutSine (1 - t) - 1| ≤ 1e-6 ∧
    |easeInOutSine 0.5 - 0.5| ≤ 1e-6 :=
  ⟨⟨easeInOutCubic_nonneg h0 h1, easeInOutCubic_le_one h0 h1⟩,
    easeInOutCubic_mono h2 h3 h4,
    ⟨easeInOutCubic_zero, easeInOutCubic_one, easeInOutCubic_half⟩,
    easeInOutCubic_sym t,
    ⟨easeInOutQuint_nonneg h0 h1, easeInOutQuint_le_one h0 h1⟩,
    easeInOutQuint_mono h2 h3 h4,
    ⟨easeInOutQuint_zero, easeInOutQuint_one, easeInOutQuint_half⟩,
    easeInOutQuint_sym t,
    easeInOutSine_bounds t,
    easeInOutSine_mono h2 h3 h4,
    easeInOutSine_zero,
    ⟨easeInOutSine_one_ge, easeInOutSine_one_lt⟩,
    easeInOutSine_sym_bound t,
    easeInOutSine_half_bound⟩

theorem spec_C9_easing_amended_witness :
    ((0 : ℝ) ≤ 0.25 ∧ (0.25 : ℝ) ≤ 1 ∧ (0 : ℝ) ≤ 0.25 ∧
      (0.25 : ℝ) ≤ 0.75 ∧ (0.75 : ℝ) ≤ 1) ∧
    easeInOutCubic 0.25 ≤ easeInOutCubic 0.75 ∧
    easeInOutCubic 0 = 0 ∧
    easeInOutQuint 0.25 ≤ easeInOutQuint 0.75 ∧
    easeInOutSine 0.25 ≤ easeInOutSine 0.75 ∧
    easeInOutCubic 0.25 + easeInOutCubic (1 - 0.25) = 1 := by
  have h := spec_C9_easing_amended 0.25 0.25 0.75 (by norm_num) (by norm_num)
    (by norm_num) (by norm_num) (by norm_num)
  exact ⟨⟨by norm_num, by norm_num, by norm_num, by norm_num, by norm_num⟩,
    h.2.1, h.2.2.1.1, h.2.2.2.2.2.1, h.2.2.2.2.2.2.2.2.2.1, h.2.2.2.1⟩

theorem Vec3.add_def (a b : Vec3) : a + b = ⟨a.x + b.x, a.y + b.y, a.z + b.z⟩ := rfl

theorem Vec3.smul_def (r : ℝ) (v : Vec3) : r • v = ⟨r * v.x, r * v.y, r * v.z⟩ := rfl

/-- C8: the Bézier evaluator equals the cubic Bernstein polynomial for every
real `t` and arbitrary control points; in particular it returns exactly `p0`
at `t = 0` and exactly `p3` at `t = 1`. -/
theorem spec_C8_bezier_bernstein (t : ℝ) (p0 p1 p2 p3 : Vec3) :
    calculateBezierPoint t p0 p1 p2 p3 = bernsteinCubic t p0 p1 p2 p3 ∧
    calculateBezierPoint 0 p0 p1 p2 p3 = p0 ∧
    calculateBezierPoint 1 p0 p1 p2 p3 = p3 := by
  refine ⟨?_, ?_, ?_⟩ <;>
    · apply Vec3.ext <;>
        simp [calculateBezierPoint, bernsteinCubic, Vec3.add_def, Vec3.smul_def] <;> ring

end BlackholeVis
